import Mathlib

/-!
Verification of the grootfs permission-faking filesystem and the groot
namespace-entry helpers (repository: alexlarsson/groot).

The definitions below are a shallow embedding of the C sources
(src/groot.c grootfs driver, src/groot-ns.c make_idmap).  Conventions:

* C unsigned 32-bit integers (mode_t, uid_t, gid_t, uint32_t) are Nat;
  all values the driver stores are below 2^32 and theorems carry explicit
  bounds where an operation could depend on the width.
* Bit tests against a single-bit mask, such as mode & S_IXUSR, are kept
  as x &&& 64 != 0 exactly as in the source; masks with contiguous low
  bits (ST_MODE_PERM_MASK = 0o7777) are kept as x &&& 4095.
  The complement mask ~ST_MODE_PERM_MASK truncated to 32 bits is the
  constant 0xFFFFF000 = 4294963200.
* C strings are List Char; byte buffers are List Nat (each byte < 256).
* Calls into the kernel (openat, fchmodat, faccessat, lgetxattr) are
  modelled by explicit functions named kernel_ or lgetxattr_, carrying
  exactly the error behaviour the driver distinguishes.
* Fallible operations return Except Int and deliver the negative errno
  the FUSE callbacks hand to the kernel.
-/

namespace Groot

/-- Linux errno values used by the driver. -/
def ENOENT : Nat := 2

/-- The errno the driver returns on internal inconsistencies. -/
def EIO_code : Nat := 5

def EACCES : Nat := 13

def EEXIST : Nat := 17

def ERANGE : Nat := 34

def ENODATA : Nat := 61

def ENOTSUP : Nat := 95

/-- ST_MODE_PERM_MASK = S_IRWXU|S_IRWXG|S_IRWXO|S_ISUID|S_ISGID|S_ISVTX = 0o7777. -/
def ST_MODE_PERM_MASK : Nat := 4095

/-- GrootFSFlags from src/groot.c: which fields of the fake record are claimed. -/
def GROOTFS_FLAGS_UID_SET : Nat := 1

def GROOTFS_FLAGS_GID_SET : Nat := 2

def GROOTFS_FLAGS_MODE_SET : Nat := 4

/-- GRootFSData from src/groot.c: the decoded 16-byte fake record
(four uint32 fields, in declaration order flags, uid, gid, mode). -/
structure GRootFSData where
  flags : Nat
  uid : Nat
  gid : Nat
  mode : Nat
deriving DecidableEq

/-- The all-zero record standing for an absent attribute (no fields claimed). -/
def zeroData : GRootFSData := { flags := 0, uid := 0, gid := 0, mode := 0 }

/-- The fields of struct stat the driver reads or writes. -/
structure StatData where
  st_uid : Nat
  st_gid : Nat
  st_mode : Nat
  st_dev : Nat
  st_ino : Nat
deriving DecidableEq

/-- S_ISDIR: (m & S_IFMT) == S_IFDIR, with S_IFMT = 0xF000 and S_IFDIR = 0x4000. -/
def S_ISDIR (m : Nat) : Bool := m &&& 61440 == 16384

/-- S_ISLNK: (m & S_IFMT) == S_IFLNK, with S_IFLNK = 0xA000. -/
def S_ISLNK (m : Nat) : Bool := m &&& 61440 == 40960

/-- get_real_mode from src/groot.c: the real on-disk bits are
rw-r--r-- (0o644 = 420), with x for all three classes (0o111 = 73)
added for directories and for executable files. -/
def get_real_mode (is_dir : Bool) (executable_default : Bool) : Nat :=
  let real_mode := 420
  if is_dir || executable_default then real_mode ||| 73 else real_mode

/-- apply_fake_data from src/groot.c: overlay the claimed fields onto the
real stat data, then rewrite uid/gid above the configured maxima to 0.
The C expression st_mode & ~ST_MODE_PERM_MASK on 32-bit mode_t is
st_mode &&& 4294963200. -/
def apply_fake_data (max_uid max_gid : Nat) (st : StatData) (data : GRootFSData) : StatData :=
  let st1 := if data.flags &&& GROOTFS_FLAGS_UID_SET != 0 then { st with st_uid := data.uid } else st
  let st2 := if data.flags &&& GROOTFS_FLAGS_GID_SET != 0 then { st1 with st_gid := data.gid } else st1
  let st3 := if data.flags &&& GROOTFS_FLAGS_MODE_SET != 0 then
      { st2 with st_mode := (st2.st_mode &&& 4294963200) ||| (data.mode &&& ST_MODE_PERM_MASK) }
    else st2
  let st4 := if st3.st_uid > max_uid then { st3 with st_uid := 0 } else st3
  if st4.st_gid > max_gid then { st4 with st_gid := 0 } else st4

/-- Result of lgetxattr/fgetxattr as the driver distinguishes it. -/
inductive XattrReadRes where
  | ok (bytes : List Nat)
  | err (errno : Nat)
deriving DecidableEq

/-- Kernel lgetxattr of attribute user.grootfs into a buffer of
sizeof(GRootFSData) = 16 bytes: an absent attribute yields ENODATA, a
stored value longer than the buffer yields ERANGE, otherwise the stored
bytes (and their count) are returned. -/
def lgetxattr_grootfs (stored : Option (List Nat)) : XattrReadRes :=
  match stored with
  | none => .err ENODATA
  | some b => if b.length > 16 then .err ERANGE else .ok b

/-- Big-endian value of a byte list (network order, as ntohl reads it). -/
def be32 (l : List Nat) : Nat := l.foldl (fun a b => a * 256 + b) 0

/-- fake_data_ntohl from src/groot.c: byte-order-normalise the four
32-bit fields of the on-disk record from big-endian. -/
def fake_data_ntohl (bytes : List Nat) : GRootFSData :=
  { flags := be32 (bytes.take 4)
    uid := be32 ((bytes.drop 4).take 4)
    gid := be32 ((bytes.drop 8).take 4)
    mode := be32 ((bytes.drop 12).take 4) }

/-- Big-endian bytes of a 32-bit value. -/
def be4 (v : Nat) : List Nat := [v / 16777216 % 256, v / 65536 % 256, v / 256 % 256, v % 256]

/-- fake_data_htonl from src/groot.c: the 16-byte big-endian wire form of a record. -/
def fake_data_htonl (d : GRootFSData) : List Nat :=
  be4 d.flags ++ be4 d.uid ++ be4 d.gid ++ be4 d.mode

/-- get_fake_data from src/groot.c, applied to the outcome of the
lgetxattr call: ENODATA and ENOTSUP (and ENOENT when allow_noent is set)
yield the all-zero record; any other errno is passed on negated; a read
whose length is not exactly sizeof(GRootFSData) = 16 is -ERANGE; otherwise
the record is byte-order-normalised from big-endian. -/
def get_fake_data (allow_noent : Bool) (read_res : XattrReadRes) : Except Int GRootFSData :=
  match read_res with
  | .err errsv =>
    if (allow_noent && (errsv == ENOENT)) || (errsv == ENODATA) || (errsv == ENOTSUP) then
      Except.ok zeroData
    else
      Except.error (-(errsv : Int))
  | .ok bytes =>
    if bytes.length != 16 then Except.error (-(ERANGE : Int))
    else Except.ok (fake_data_ntohl bytes)

/-! ### Single-file state and the chmod/chown/getattr operations (C1, C2, C4) -/

/-- The state of one backing inode: its real stat fields and its decoded
fake record (an absent user.grootfs attribute reads back as zeroData,
so the record itself is the observable state). -/
structure FileState where
  real : StatData
  fake : GRootFSData
deriving DecidableEq

/-- Kernel fchmodat: the permission bits (low 12) are replaced by the
given mode, the file type bits are kept. -/
def kernel_chmod (m : Nat) (perm : Nat) : Nat := (m - m % 4096) + perm % 4096

/-- grootfs_chmod from src/groot.c (success path): force the real bits to
the real-bits policy computed from the (fake-overlaid) stat data and the
owner-executable bit of the requested mode, then record the claimed mode
in the fake record.  max_uid/max_gid enter through the overlay used for
the S_ISDIR test only. -/
def grootfs_chmod_step (max_uid max_gid : Nat) (st : FileState) (mode : Nat) : FileState :=
  let info_st := apply_fake_data max_uid max_gid st.real st.fake
  let real_mode := get_real_mode (S_ISDIR info_st.st_mode) (mode &&& 64 != 0)
  { real := { st.real with st_mode := kernel_chmod st.real.st_mode real_mode }
    fake := { st.fake with
                mode := mode &&& ST_MODE_PERM_MASK
                flags := st.fake.flags ||| GROOTFS_FLAGS_MODE_SET } }

/-- uid_t is unsigned 32-bit; the C comparison uid != -1 compares against
0xFFFFFFFF = 4294967295. -/
def uid_minus_one : Nat := 4294967295

/-- grootfs_chown from src/groot.c (success path): update only the claimed
fields selected by uid != -1 and gid != -1; the backing inode is untouched. -/
def grootfs_chown_step (st : FileState) (uid gid : Nat) : FileState :=
  let d := st.fake
  let d1 := if uid != uid_minus_one then
      { d with uid := uid, flags := d.flags ||| GROOTFS_FLAGS_UID_SET }
    else d
  let d2 := if gid != uid_minus_one then
      { d1 with gid := gid, flags := d1.flags ||| GROOTFS_FLAGS_GID_SET }
    else d1
  { st with fake := d2 }

/-- grootfs_getattr from src/groot.c: real stat overlaid with the fake
record and projected through the identity caps. -/
def grootfs_getattr_model (max_uid max_gid : Nat) (st : FileState) : StatData :=
  apply_fake_data max_uid max_gid st.real st.fake

/-- A claim-recording operation performed on one path. -/
inductive ClaimOp where
  | chmodOp (mode : Nat)
  | chownOp (uid gid : Nat)
deriving DecidableEq

/-- Run a sequence of successful chmod/chown operations. -/
def runClaims (max_uid max_gid : Nat) : FileState → List ClaimOp → FileState
  | st, [] => st
  | st, op :: rest =>
    match op with
    | .chmodOp m => runClaims max_uid max_gid (grootfs_chmod_step max_uid max_gid st m) rest
    | .chownOp u g => runClaims max_uid max_gid (grootfs_chown_step st u g) rest

/-- The value recorded by the latest operation that sets a given field,
if any operation in the list sets it. -/
def lastClaim (ex : ClaimOp → Option Nat) (ops : List ClaimOp) : Option Nat :=
  ops.foldl (fun acc op => match ex op with | some v => some v | none => acc) none

/-- The uid recorded by a chown (when uid != -1). -/
def exChownUid : ClaimOp → Option Nat
  | .chownOp u _ => if u != uid_minus_one then some u else none
  | _ => none

/-- The gid recorded by a chown (when gid != -1). -/
def exChownGid : ClaimOp → Option Nat
  | .chownOp _ g => if g != uid_minus_one then some g else none
  | _ => none

/-- The masked mode recorded by a chmod. -/
def exChmodMode : ClaimOp → Option Nat
  | .chmodOp m => some (m &&& ST_MODE_PERM_MASK)
  | _ => none

/-- The identity-capping rule: ids above the configured maximum read back as 0. -/
def capId (maxv v : Nat) : Nat := if v > maxv then 0 else v

/-! ### create/open (C3, C10) -/

def O_CREAT : Nat := 64

def O_EXCL : Nat := 128

/-- Outcome of a kernel openat on the backing directory. -/
inductive OpenAtRes where
  | opened (created : Bool)
  | failed (errno : Nat)
deriving DecidableEq

/-- Kernel openat relative to the backing directory handle: with O_CREAT a
missing file is created; O_CREAT|O_EXCL on an existing file is EEXIST;
without O_CREAT a missing file is ENOENT. -/
def kernel_openat (file_present : Bool) (flags : Nat) : OpenAtRes :=
  if flags &&& O_CREAT != 0 then
    if file_present then
      if flags &&& O_EXCL != 0 then .failed EEXIST else .opened false
    else .opened true
  else
    if file_present then .opened false else .failed ENOENT

/-- Backing state seen by do_open: whether the file exists and its fake
record attribute (none when no user.grootfs attribute is present). -/
structure OpenFileState where
  file_present : Bool
  fake : Option GRootFSData
deriving DecidableEq

/-- Result of do_open: the FUSE return value, the resulting backing state,
and the flag words passed to openat, in call order. -/
structure OpenOutcome where
  result : Except Int Unit
  state : OpenFileState
  openCalls : List Nat

/-- do_open from src/groot.c.  When O_CREAT is requested without O_EXCL the
first openat adds O_EXCL so the driver learns whether it created the file;
EEXIST then triggers a retry with the original flags and the file counts as
pre-existing.  A newly created file gets a fake record with all three fields
set from the request mode and the FUSE context credentials; set_fake_dataf
failing (modelled by setxattr_errno = some e) closes the new fd and returns
the error. -/
def do_open (st : OpenFileState) (flags mode ctx_uid ctx_gid : Nat)
    (setxattr_errno : Option Nat) : OpenOutcome :=
  let o_creat := flags &&& O_CREAT != 0
  let o_excl := flags &&& O_EXCL != 0
  let flags1 := if o_creat && !o_excl then flags ||| O_EXCL else flags
  match kernel_openat st.file_present flags1 with
  | .failed e =>
    if o_creat && !o_excl && (e == EEXIST) then
      -- created_file := FALSE, retry without the forced O_EXCL
      match kernel_openat st.file_present flags with
      | .failed e2 => { result := Except.error (-(e2 : Int)), state := st, openCalls := [flags1, flags] }
      | .opened _ => { result := Except.ok (), state := st, openCalls := [flags1, flags] }
    else
      { result := Except.error (-(e : Int)), state := st, openCalls := [flags1] }
  | .opened _ =>
    -- created_file keeps its initial value o_creat on this path
    let st1 : OpenFileState := { st with file_present := true }
    if o_creat then
      let data : GRootFSData :=
        { flags := GROOTFS_FLAGS_MODE_SET ||| GROOTFS_FLAGS_UID_SET ||| GROOTFS_FLAGS_GID_SET
          uid := ctx_uid
          gid := ctx_gid
          mode := mode &&& ST_MODE_PERM_MASK }
      match setxattr_errno with
      | some e => { result := Except.error (-(e : Int)), state := st1, openCalls := [flags1] }
      | none => { result := Except.ok (), state := { st1 with fake := some data }, openCalls := [flags1] }
    else
      { result := Except.ok (), state := st1, openCalls := [flags1] }

/-! ### unlink and symlink sidecars (C6) -/

/-- Per-inode data relevant to unlink: identity, whether it is a symlink,
and the user.grootfs attribute stored on the inode itself. -/
structure InodeData where
  st_dev : Nat
  st_ino : Nat
  is_symlink : Bool
  xattrData : Option (List Nat)
deriving DecidableEq

/-- Association-list lookup by key. -/
def lookupKey {α β : Type} [DecidableEq α] : List (α × β) → α → Option β
  | [], _ => none
  | (k, v) :: rest, key => if k = key then some v else lookupKey rest key

/-- Remove every binding of a key (kernel unlink of that name). -/
def removeKey {α β : Type} [DecidableEq α] : List (α × β) → α → List (α × β)
  | [], _ => []
  | (k, v) :: rest, key => if k = key then removeKey rest key else (k, v) :: removeKey rest key

/-- State of one wrap directory as unlink sees it: the directory entries and
the sidecar files living at the wrap root (name, and the user.grootfs
attribute of the sidecar file, none while no record was written to it). -/
structure WrapState where
  entries : List (List Char × InodeData)
  sidecars : List (List Char × Option (List Nat))
deriving DecidableEq

/-- The sidecar file name .groot.symlink.devhex_inohex built by
_groot_path_info_init_base with xasprintf and %lx (lower-case hex). -/
def sidecar_name (dev ino : Nat) : List Char :=
  ".groot.symlink.".toList ++ Nat.toDigits 16 dev ++ ['_'] ++ Nat.toDigits 16 ino

/-- Reading the fake record stored for a sidecar file: a missing file is
ENOENT, a file without the attribute ENODATA, otherwise the 16-byte read. -/
def read_sidecar (st : WrapState) (name : List Char) : XattrReadRes :=
  match lookupKey st.sidecars name with
  | none => .err ENOENT
  | some none => .err ENODATA
  | some (some bytes) => lgetxattr_grootfs (some bytes)

/-- grootfs_unlink from src/groot.c: stat the entry without following it;
a symlink reads its fake record from the sidecar keyed by its dev and ino
(allow_noent set); unlink the entry; for a symlink also unlink the sidecar. -/
def grootfs_unlink (st : WrapState) (path : List Char) : Except Int WrapState :=
  match lookupKey st.entries path with
  | none => Except.error (-(ENOENT : Int))
  | some e =>
    if e.is_symlink then
      let datafile := sidecar_name e.st_dev e.st_ino
      match get_fake_data true (read_sidecar st datafile) with
      | .error _ => Except.error (-(EIO_code : Int))
      | .ok _ =>
        Except.ok { entries := removeKey st.entries path
                    sidecars := removeKey st.sidecars datafile }
    else
      match get_fake_data false (lgetxattr_grootfs e.xattrData) with
      | .error _ => Except.error (-(EIO_code : Int))
      | .ok _ => Except.ok { st with entries := removeKey st.entries path }

/-! ### user xattrs (C7) -/

/-- GROOT_CUSTOM_XATTR_PREFIX = "user.grootfs." -/
def grootfs_xattr_pfx : List Char := "user.grootfs.".toList

/-- The backing attributes of one inode (name, value). -/
structure XattrFile where
  xattrs : List (List Char × List Nat)
deriving DecidableEq

/-- lsetxattr with flags 0: replace the binding or create it. -/
def setAssoc {α β : Type} [DecidableEq α] : List (α × β) → α → β → List (α × β)
  | [], key, v => [(key, v)]
  | (k, w) :: rest, key, v =>
    if k = key then (key, v) :: rest else (k, w) :: setAssoc rest key v

/-- grootfs_setxattr from src/groot.c: store under user.grootfs.name. -/
def grootfs_setxattr (f : XattrFile) (name : List Char) (value : List Nat) : XattrFile :=
  { xattrs := setAssoc f.xattrs (grootfs_xattr_pfx ++ name) value }

/-- grootfs_getxattr from src/groot.c: read back user.grootfs.name. -/
def grootfs_getxattr (f : XattrFile) (name : List Char) : Except Int (List Nat) :=
  match lookupKey f.xattrs (grootfs_xattr_pfx ++ name) with
  | none => Except.error (-(ENODATA : Int))
  | some v => Except.ok v

/-- The second loop of grootfs_listxattr: keep names carrying the prefix,
stripped of it. -/
def strip_listed : List (List Char) → List (List Char)
  | [] => []
  | n :: rest =>
    if grootfs_xattr_pfx.isPrefixOf n then n.drop grootfs_xattr_pfx.length :: strip_listed rest
    else strip_listed rest

/-- The first loop of grootfs_listxattr: total size of the stripped names,
each with its NUL terminator. -/
def fake_size_of : List (List Char) → Nat
  | [] => 0
  | n :: rest =>
    (if grootfs_xattr_pfx.isPrefixOf n then (n.drop grootfs_xattr_pfx.length).length + 1 else 0)
      + fake_size_of rest

/-- Result of grootfs_listxattr: the required size for a size-0 probe, an
error, or the name list together with the returned byte count. -/
inductive ListXattrRes where
  | size (n : Nat)
  | err (e : Int)
  | names (l : List (List Char)) (ret : Nat)
deriving DecidableEq

/-- grootfs_listxattr from src/groot.c (the backing llistxattr loop already
resolved to the full name list): report the needed size when called with
size 0, ERANGE when the caller buffer is too small, else the stripped names. -/
def grootfs_listxattr (f : XattrFile) (size : Nat) : ListXattrRes :=
  let real_names := f.xattrs.map Prod.fst
  let fake_size := fake_size_of real_names
  if size = 0 then .size fake_size
  else if size < fake_size then .err (-(ERANGE : Int))
  else .names (strip_listed real_names) fake_size

/-! ### access (C8) -/

def W_OK : Nat := 2

/-- Kernel faccessat(basefd, path, mode, AT_SYMLINK_NOFOLLOW) for the
unprivileged daemon owning the backing file: each requested permission
(R_OK = 4, W_OK = 2, X_OK = 1) must be granted by the owner bits of the
real on-disk mode, else EACCES. -/
def kernel_faccessat (real_mode : Nat) (amode : Nat) : Option Nat :=
  if ((amode &&& 4 != 0) && !(real_mode &&& 256 != 0))
      || ((amode &&& 2 != 0) && !(real_mode &&& 128 != 0))
      || ((amode &&& 1 != 0) && !(real_mode &&& 64 != 0)) then
    some EACCES
  else none

/-- grootfs_access from src/groot.c: the probe is forwarded to faccessat on
the backing file and its failure is returned as a negative errno. -/
def grootfs_access (real_mode amode : Nat) : Int :=
  match kernel_faccessat real_mode amode with
  | some e => -(e : Int)
  | none => 0

/-! ### make_idmap (C9) -/

/-- C isspace for the default locale. -/
def isspace (c : Char) : Bool :=
  c = ' ' || c = '\t' || c = '\n' || c = '\x0b' || c = '\x0c' || c = '\r'

/-- Decimal value of a digit run. -/
def digitsVal (ds : List Char) : Nat := ds.foldl (fun a c => a * 10 + (c.toNat - 48)) 0

/-- strtol(s, &end, 10) followed by the check *end == 0 used in make_idmap:
optional whitespace, optional sign, a digit run that must reach the end of
the string.  When no digit is converted, end stays at the start, so only
the empty string passes the *end check (with value 0).  Overflow clamping
to LONG_MAX is not modelled. -/
def strtol_all (s : List Char) : Option Int :=
  let t := s.dropWhile isspace
  let p : Int × List Char :=
    match t with
    | '-' :: r => (-1, r)
    | '+' :: r => (1, r)
    | _ => (1, t)
  let ds := p.2.takeWhile Char.isDigit
  let rest := p.2.dropWhile Char.isDigit
  if ds.isEmpty then (if s.isEmpty then some 0 else none)
  else if rest.isEmpty then some (p.1 * (digitsVal ds : Int)) else none

/-- strsep splitting at a separator character. -/
def splitSep (sep : Char) : List Char → List (List Char)
  | [] => [[]]
  | c :: rest =>
    match splitSep sep rest with
    | [] => [[c]]
    | l :: ls => if c = sep then [] :: l :: ls else (c :: l) :: ls

/-- strchr at the first colon: the part before it and the rest after it. -/
def splitAtColon : List Char → Option (List Char × List Char)
  | [] => none
  | c :: rest =>
    if c = ':' then some ([], rest)
    else
      match splitAtColon rest with
      | none => none
      | some (a, b) => some (c :: a, b)

/-- How make_idmap treats one line of the sub-ID file. -/
inductive LineRes where
  | othername
  | malformed
  | idrange (base count : Int)
deriving DecidableEq

/-- One iteration of the make_idmap line loop: the line must start with
the user name followed by a colon; the rest splits at the next colon into
two numbers, each fully consumed by strtol. -/
def parse_subid_line (username : List Char) (line : List Char) : LineRes :=
  if !((username ++ [':']).isPrefixOf line) then .othername
  else
    let rest := line.drop (username.length + 1)
    match splitAtColon rest with
    | none => .malformed
    | some (first, second) =>
      match strtol_all first with
      | none => .malformed
      | some base =>
        match strtol_all second with
        | none => .malformed
        | some count => .idrange base count

/-- Loop state of make_idmap: triples written so far (ns_start, host_start,
length, kept as numbers rather than their decimal strings), the next
namespace id, and the count of invalid-format warnings. -/
structure IdmapState where
  triples : List (Int × Int × Int)
  next_id : Int
  invalid_warns : Nat
deriving DecidableEq

/-- The body of the make_idmap while loop for one line. -/
def idmap_step (username : List Char) (acc : IdmapState) (line : List Char) : IdmapState :=
  match parse_subid_line username line with
  | .othername => acc
  | .malformed => { acc with invalid_warns := acc.invalid_warns + 1 }
  | .idrange base count =>
    { triples := acc.triples ++ [(acc.next_id, base, count)]
      next_id := acc.next_id + count
      invalid_warns := acc.invalid_warns }

/-- Result of make_idmap: the mapping triples and the warnings it printed. -/
structure IdmapResult where
  triples : List (Int × Int × Int)
  invalid_warns : Nat
  no_ids_warn : Bool
deriving DecidableEq

/-- make_idmap from src/groot-ns.c: the identity triple 0 base_id 1 first,
then one triple per accepted line of the file content (none when the file
could not be read); the trailing warning fires when next_id is still 1. -/
def make_idmap (username : List Char) (content : Option (List Char)) (base_id : Int) : IdmapResult :=
  let init : IdmapState := { triples := [(0, base_id, 1)], next_id := 1, invalid_warns := 0 }
  let final : IdmapState :=
    match content with
    | none => init
    | some cs => (splitSep '\n' cs).foldl (idmap_step username) init
  { triples := final.triples
    invalid_warns := final.invalid_warns
    no_ids_warn := decide (final.next_id = 1) }

/-- The (base, count) pairs of the lines make_idmap accepts, in order. -/
def acceptedRanges (username : List Char) (lines : List (List Char)) : List (Int × Int) :=
  lines.filterMap (fun l =>
    match parse_subid_line username l with
    | .idrange b c => some (b, c)
    | _ => none)

/-- The number of warned-about malformed lines. -/
def malformedCount (username : List Char) (lines : List (List Char)) : Nat :=
  lines.countP (fun l => parse_subid_line username l == LineRes.malformed)

/-- Dense namespace-id assignment starting at a given id. -/
def densify (next : Int) : List (Int × Int) → List (Int × Int × Int)
  | [] => []
  | (b, c) :: rest => (next, b, c) :: densify (next + c) rest

/-- Total allocation length of a range list. -/
def sumCounts : List (Int × Int) → Int
  | [] => 0
  | (_, c) :: rest => c + sumCounts rest

/-! ## Bridge lemmas between the C bit operations and arithmetic -/

theorem land_pow_bne (f i : Nat) : (f &&& 2 ^ i != 0) = f.testBit i := by
  rw [Nat.and_two_pow]
  cases h : f.testBit i
  · simp [h]
  · simp [h, (Nat.two_pow_pos i).ne']

theorem land_one_bne (f : Nat) : (f &&& 1 != 0) = f.testBit 0 := by
  rw [show (1 : Nat) = 2 ^ 0 by norm_num]; exact land_pow_bne f 0

theorem land_two_bne (f : Nat) : (f &&& 2 != 0) = f.testBit 1 := by
  rw [show (2 : Nat) = 2 ^ 1 by norm_num]; exact land_pow_bne f 1

theorem land_four_bne (f : Nat) : (f &&& 4 != 0) = f.testBit 2 := by
  rw [show (4 : Nat) = 2 ^ 2 by norm_num]; exact land_pow_bne f 2

theorem land_64_bne (f : Nat) : (f &&& 64 != 0) = f.testBit 6 := by
  rw [show (64 : Nat) = 2 ^ 6 by norm_num]; exact land_pow_bne f 6

theorem land_128_bne (f : Nat) : (f &&& 128 != 0) = f.testBit 7 := by
  rw [show (128 : Nat) = 2 ^ 7 by norm_num]; exact land_pow_bne f 7

theorem testBit_lor_pow_self (f k : Nat) : (f ||| 2 ^ k).testBit k = true := by
  rw [Nat.testBit_or, Nat.testBit_two_pow_self, Bool.or_true]

theorem testBit_lor_pow_of_ne (f : Nat) {k j : Nat} (h : k ≠ j) :
    (f ||| 2 ^ k).testBit j = f.testBit j := by
  rw [Nat.testBit_or, Nat.testBit_two_pow_of_ne h, Bool.or_false]

theorem tb_lor_one_zero (f : Nat) : (f ||| 1).testBit 0 = true := by
  rw [show (1 : Nat) = 2 ^ 0 by norm_num]; exact testBit_lor_pow_self f 0

theorem tb_lor_one_one (f : Nat) : (f ||| 1).testBit 1 = f.testBit 1 := by
  rw [show (1 : Nat) = 2 ^ 0 by norm_num]; exact testBit_lor_pow_of_ne f (by omega)

theorem tb_lor_one_two (f : Nat) : (f ||| 1).testBit 2 = f.testBit 2 := by
  rw [show (1 : Nat) = 2 ^ 0 by norm_num]; exact testBit_lor_pow_of_ne f (by omega)

theorem tb_lor_two_zero (f : Nat) : (f ||| 2).testBit 0 = f.testBit 0 := by
  rw [show (2 : Nat) = 2 ^ 1 by norm_num]; exact testBit_lor_pow_of_ne f (by omega)

theorem tb_lor_two_one (f : Nat) : (f ||| 2).testBit 1 = true := by
  rw [show (2 : Nat) = 2 ^ 1 by norm_num]; exact testBit_lor_pow_self f 1

theorem tb_lor_two_two (f : Nat) : (f ||| 2).testBit 2 = f.testBit 2 := by
  rw [show (2 : Nat) = 2 ^ 1 by norm_num]; exact testBit_lor_pow_of_ne f (by omega)

theorem tb_lor_four_zero (f : Nat) : (f ||| 4).testBit 0 = f.testBit 0 := by
  rw [show (4 : Nat) = 2 ^ 2 by norm_num]; exact testBit_lor_pow_of_ne f (by omega)

theorem tb_lor_four_one (f : Nat) : (f ||| 4).testBit 1 = f.testBit 1 := by
  rw [show (4 : Nat) = 2 ^ 2 by norm_num]; exact testBit_lor_pow_of_ne f (by omega)

theorem tb_lor_four_two (f : Nat) : (f ||| 4).testBit 2 = true := by
  rw [show (4 : Nat) = 2 ^ 2 by norm_num]; exact testBit_lor_pow_self f 2

theorem land_4095 (m : Nat) : m &&& 4095 = m % 4096 := by
  rw [show (4095 : Nat) = 2 ^ 12 - 1 by norm_num, Nat.and_pow_two_sub_one_eq_mod]

theorem land_high (m : Nat) (h : m < 4294967296) : m &&& 4294963200 = 4096 * (m / 4096) := by
  apply Nat.eq_of_testBit_eq
  intro i
  rw [Nat.testBit_and, show (4294963200 : Nat) = 2 ^ 12 * (2 ^ 20 - 1) by norm_num,
    show (4096 : Nat) = 2 ^ 12 by norm_num, Nat.testBit_mul_pow_two, Nat.testBit_mul_pow_two,
    show m / 2 ^ 12 = m >>> 12 by rw [Nat.shiftRight_eq_div_pow], Nat.testBit_shiftRight,
    Nat.testBit_two_pow_sub_one]
  by_cases hi : 12 ≤ i
  · rw [show 12 + (i - 12) = i by omega]
    by_cases h32 : i < 32
    · have h20 : i - 12 < 20 := by omega
      simp [hi, h20]
    · have hbit : m.testBit i = false := Nat.testBit_lt_two_pow (by
        have h2 : (2 : Nat) ^ 32 ≤ 2 ^ i := Nat.pow_le_pow_right (by norm_num) (by omega)
        have h3 : (4294967296 : Nat) = 2 ^ 32 := by norm_num
        omega)
      simp [hbit]
  · simp [hi]

theorem lor_eq_add (a b : Nat) (ha : a % 4096 = 0) (hb : b < 4096) : (a ||| b) = a + b := by
  have hb2 : b < 2 ^ 12 := by omega
  have h := Nat.mul_add_lt_is_or hb2 (a / 4096)
  have h2 : 2 ^ 12 * (a / 4096) = a := by omega
  rw [h2] at h
  omega

/-- The C mode overlay (real mode with permission bits replaced by the
claimed ones) in arithmetic form. -/
theorem overlay_eq (m d : Nat) (h : m < 4294967296) :
    (m &&& 4294963200) ||| (d &&& 4095) = (m - m % 4096) + d % 4096 := by
  rw [land_4095, land_high m h, lor_eq_add _ _ (by omega) (by omega)]
  omega

/-- The overlay never changes the file-type bits tested by S_ISDIR. -/
theorem S_ISDIR_overlay (m d : Nat) :
    S_ISDIR ((m &&& 4294963200) ||| (d &&& 4095)) = S_ISDIR m := by
  unfold S_ISDIR
  have h : ((m &&& 4294963200) ||| (d &&& 4095)) &&& 61440 = m &&& 61440 := by
    apply Nat.eq_of_testBit_eq
    intro i
    simp only [Nat.testBit_and, Nat.testBit_or]
    rw [show (4294963200 : Nat) = 2 ^ 12 * (2 ^ 20 - 1) by norm_num,
      show (61440 : Nat) = 2 ^ 12 * 15 by norm_num,
      show (15 : Nat) = 2 ^ 4 - 1 by norm_num,
      show (4095 : Nat) = 2 ^ 12 - 1 by norm_num]
    simp only [Nat.testBit_mul_pow_two, Nat.testBit_two_pow_sub_one]
    by_cases hi : 12 ≤ i
    · by_cases h4 : i - 12 < 4
      · have h20 : i - 12 < 20 := by omega
        have hlow : ¬ i < 12 := by omega
        simp [hi, h4, h20, hlow]
      · simp [h4]
    · simp [hi]
  rw [h]

/-! ## Field characterisations of apply_fake_data -/

theorem apply_fake_data_st_uid (maxU maxG : Nat) (st : StatData) (d : GRootFSData) :
    (apply_fake_data maxU maxG st d).st_uid
      = capId maxU (if d.flags &&& 1 != 0 then d.uid else st.st_uid) := by
  unfold apply_fake_data capId
  simp only [GROOTFS_FLAGS_UID_SET, GROOTFS_FLAGS_GID_SET, GROOTFS_FLAGS_MODE_SET]
  by_cases h1 : (d.flags &&& 1 != 0) = true <;>
    by_cases h2 : (d.flags &&& 2 != 0) = true <;>
      by_cases h3 : (d.flags &&& 4 != 0) = true <;>
        simp [h1, h2, h3, apply_ite StatData.st_uid]

theorem apply_fake_data_st_gid (maxU maxG : Nat) (st : StatData) (d : GRootFSData) :
    (apply_fake_data maxU maxG st d).st_gid
      = capId maxG (if d.flags &&& 2 != 0 then d.gid else st.st_gid) := by
  unfold apply_fake_data capId
  simp only [GROOTFS_FLAGS_UID_SET, GROOTFS_FLAGS_GID_SET, GROOTFS_FLAGS_MODE_SET]
  by_cases h1 : (d.flags &&& 1 != 0) = true <;>
    by_cases h2 : (d.flags &&& 2 != 0) = true <;>
      by_cases h3 : (d.flags &&& 4 != 0) = true <;>
        simp [h1, h2, h3, apply_ite StatData.st_gid]

theorem apply_fake_data_st_mode (maxU maxG : Nat) (st : StatData) (d : GRootFSData) :
    (apply_fake_data maxU maxG st d).st_mode
      = (if d.flags &&& 4 != 0 then (st.st_mode &&& 4294963200) ||| (d.mode &&& 4095) else st.st_mode) := by
  unfold apply_fake_data
  simp only [GROOTFS_FLAGS_UID_SET, GROOTFS_FLAGS_GID_SET, GROOTFS_FLAGS_MODE_SET,
    ST_MODE_PERM_MASK]
  by_cases h1 : (d.flags &&& 1 != 0) = true <;>
    by_cases h2 : (d.flags &&& 2 != 0) = true <;>
      by_cases h3 : (d.flags &&& 4 != 0) = true <;>
        simp [h1, h2, h3, apply_ite StatData.st_mode]

/-! ## Step effects of chmod and chown on the single-file state -/

theorem chmod_step_real_uid (maxU maxG : Nat) (st : FileState) (m : Nat) :
    (grootfs_chmod_step maxU maxG st m).real.st_uid = st.real.st_uid := rfl

theorem chmod_step_real_gid (maxU maxG : Nat) (st : FileState) (m : Nat) :
    (grootfs_chmod_step maxU maxG st m).real.st_gid = st.real.st_gid := rfl

theorem chmod_step_fake_uid (maxU maxG : Nat) (st : FileState) (m : Nat) :
    (grootfs_chmod_step maxU maxG st m).fake.uid = st.fake.uid := rfl

theorem chmod_step_fake_gid (maxU maxG : Nat) (st : FileState) (m : Nat) :
    (grootfs_chmod_step maxU maxG st m).fake.gid = st.fake.gid := rfl

theorem chmod_step_fake_mode (maxU maxG : Nat) (st : FileState) (m : Nat) :
    (grootfs_chmod_step maxU maxG st m).fake.mode = m &&& 4095 := rfl

theorem chmod_step_fake_flags (maxU maxG : Nat) (st : FileState) (m : Nat) :
    (grootfs_chmod_step maxU maxG st m).fake.flags = st.fake.flags ||| 4 := rfl

theorem chmod_step_real_mode (maxU maxG : Nat) (st : FileState) (m : Nat) :
    (grootfs_chmod_step maxU maxG st m).real.st_mode
      = kernel_chmod st.real.st_mode
          (get_real_mode (S_ISDIR (apply_fake_data maxU maxG st.real st.fake).st_mode)
            (m &&& 64 != 0)) := rfl

theorem chown_step_real (st : FileState) (u g : Nat) :
    (grootfs_chown_step st u g).real = st.real := by
  unfold grootfs_chown_step
  by_cases hu : (u != uid_minus_one) = true <;>
    by_cases hg : (g != uid_minus_one) = true <;> simp [hu, hg]

theorem chown_step_fake_uid (st : FileState) (u g : Nat) :
    (grootfs_chown_step st u g).fake.uid = if u != uid_minus_one then u else st.fake.uid := by
  unfold grootfs_chown_step
  by_cases hu : (u != uid_minus_one) = true <;>
    by_cases hg : (g != uid_minus_one) = true <;> simp [hu, hg]

theorem chown_step_fake_gid (st : FileState) (u g : Nat) :
    (grootfs_chown_step st u g).fake.gid = if g != uid_minus_one then g else st.fake.gid := by
  unfold grootfs_chown_step
  by_cases hu : (u != uid_minus_one) = true <;>
    by_cases hg : (g != uid_minus_one) = true <;> simp [hu, hg]

theorem chown_step_fake_mode (st : FileState) (u g : Nat) :
    (grootfs_chown_step st u g).fake.mode = st.fake.mode := by
  unfold grootfs_chown_step
  by_cases hu : (u != uid_minus_one) = true <;>
    by_cases hg : (g != uid_minus_one) = true <;> simp [hu, hg]

theorem chown_step_flag0 (st : FileState) (u g : Nat) :
    (grootfs_chown_step st u g).fake.flags.testBit 0
      = (st.fake.flags.testBit 0 || (u != uid_minus_one)) := by
  unfold grootfs_chown_step
  simp only [GROOTFS_FLAGS_UID_SET, GROOTFS_FLAGS_GID_SET]
  by_cases hu : (u != uid_minus_one) = true <;>
    by_cases hg : (g != uid_minus_one) = true <;>
      simp [hu, hg, Nat.testBit_or, show Nat.testBit 1 0 = true by decide,
        show Nat.testBit 2 0 = false by decide]

theorem chown_step_flag1 (st : FileState) (u g : Nat) :
    (grootfs_chown_step st u g).fake.flags.testBit 1
      = (st.fake.flags.testBit 1 || (g != uid_minus_one)) := by
  unfold grootfs_chown_step
  simp only [GROOTFS_FLAGS_UID_SET, GROOTFS_FLAGS_GID_SET]
  by_cases hu : (u != uid_minus_one) = true <;>
    by_cases hg : (g != uid_minus_one) = true <;>
      simp [hu, hg, Nat.testBit_or, show Nat.testBit 1 1 = false by decide,
        show Nat.testBit 2 1 = true by decide]

theorem chown_step_flag2 (st : FileState) (u g : Nat) :
    (grootfs_chown_step st u g).fake.flags.testBit 2 = st.fake.flags.testBit 2 := by
  unfold grootfs_chown_step
  simp only [GROOTFS_FLAGS_UID_SET, GROOTFS_FLAGS_GID_SET]
  by_cases hu : (u != uid_minus_one) = true <;>
    by_cases hg : (g != uid_minus_one) = true <;>
      simp [hu, hg, Nat.testBit_or, show Nat.testBit 1 2 = false by decide,
        show Nat.testBit 2 2 = false by decide]

/-- Claim C2: after a successful chmod(P, M) the real on-disk permission
bits equal rw-r--r-- (0o644 = 420) with x for all three classes (so 0o755
= 493) exactly when P is a directory or M has S_IXUSR; the type bits are
untouched; the claimed mode (masked to the 0o7777 bits) lands only in the
fake record, whose MODE_SET flag is raised; the backing owner is untouched. -/
theorem chmod_real_bits_policy (maxU maxG : Nat) (st : FileState) (mode : Nat) :
    (grootfs_chmod_step maxU maxG st mode).real.st_mode % 4096
        = (if S_ISDIR st.real.st_mode || (mode &&& 64 != 0) then 493 else 420) ∧
    (grootfs_chmod_step maxU maxG st mode).real.st_mode - (grootfs_chmod_step maxU maxG st mode).real.st_mode % 4096
        = st.real.st_mode - st.real.st_mode % 4096 ∧
    (grootfs_chmod_step maxU maxG st mode).fake.mode = mode % 4096 ∧
    (grootfs_chmod_step maxU maxG st mode).fake.flags.testBit 2 = true ∧
    (grootfs_chmod_step maxU maxG st mode).real.st_uid = st.real.st_uid ∧
    (grootfs_chmod_step maxU maxG st mode).real.st_gid = st.real.st_gid := by
  have hdir : S_ISDIR (apply_fake_data maxU maxG st.real st.fake).st_mode
      = S_ISDIR st.real.st_mode := by
    rw [apply_fake_data_st_mode]
    by_cases h : (st.fake.flags &&& 4 != 0) = true <;> simp [h, S_ISDIR_overlay]
  have hreal : (grootfs_chmod_step maxU maxG st mode).real.st_mode
      = kernel_chmod st.real.st_mode
          (if S_ISDIR st.real.st_mode || (mode &&& 64 != 0) then 493 else 420) := by
    rw [chmod_step_real_mode, hdir]
    unfold get_real_mode
    by_cases h : (S_ISDIR st.real.st_mode || (mode &&& 64 != 0)) = true <;> simp [h]
  refine ⟨?_, ?_, ?_, ?_, chmod_step_real_uid .., chmod_step_real_gid ..⟩
  · rw [hreal]
    unfold kernel_chmod
    by_cases h : (S_ISDIR st.real.st_mode || (mode &&& 64 != 0)) = true <;> simp [h] <;> omega
  · rw [hreal]
    unfold kernel_chmod
    by_cases h : (S_ISDIR st.real.st_mode || (mode &&& 64 != 0)) = true <;> simp [h] <;> omega
  · rw [chmod_step_fake_mode, land_4095]
  · rw [chmod_step_fake_flags]
    exact tb_lor_four_two _

/-- Claim C4: a successful chown updates only the claimed uid field when
uid is not -1 and only the claimed gid field when gid is not -1; the
claimed mode and its flag, and the whole backing stat data, are unchanged. -/
theorem chown_updates_only_claims (st : FileState) (uid gid : Nat) :
    (grootfs_chown_step st uid gid).real = st.real ∧
    (grootfs_chown_step st uid gid).fake.mode = st.fake.mode ∧
    (grootfs_chown_step st uid gid).fake.flags.testBit 2 = st.fake.flags.testBit 2 ∧
    (uid ≠ uid_minus_one →
      (grootfs_chown_step st uid gid).fake.uid = uid ∧
      (grootfs_chown_step st uid gid).fake.flags.testBit 0 = true) ∧
    (uid = uid_minus_one →
      (grootfs_chown_step st uid gid).fake.uid = st.fake.uid ∧
      (grootfs_chown_step st uid gid).fake.flags.testBit 0 = st.fake.flags.testBit 0) ∧
    (gid ≠ uid_minus_one →
      (grootfs_chown_step st uid gid).fake.gid = gid ∧
      (grootfs_chown_step st uid gid).fake.flags.testBit 1 = true) ∧
    (gid = uid_minus_one →
      (grootfs_chown_step st uid gid).fake.gid = st.fake.gid ∧
      (grootfs_chown_step st uid gid).fake.flags.testBit 1 = st.fake.flags.testBit 1) := by
  refine ⟨chown_step_real .., chown_step_fake_mode .., chown_step_flag2 .., ?_, ?_, ?_, ?_⟩
  · intro h
    rw [chown_step_fake_uid, chown_step_flag0]
    simp [bne_iff_ne, h]
  · intro h
    rw [chown_step_fake_uid, chown_step_flag0]
    simp [h]
  · intro h
    rw [chown_step_fake_gid, chown_step_flag1]
    simp [bne_iff_ne, h]
  · intro h
    rw [chown_step_fake_gid, chown_step_flag1]
    simp [h]

/-- Witness for chown_updates_only_claims at chown(5, -1) on a file whose
record already claims mode 420. -/
theorem chown_updates_only_claims_witness :
    (grootfs_chown_step ⟨⟨1, 1, 33188, 0, 0⟩, ⟨4, 0, 0, 420⟩⟩ 5 4294967295).fake.uid = 5 ∧
    (grootfs_chown_step ⟨⟨1, 1, 33188, 0, 0⟩, ⟨4, 0, 0, 420⟩⟩ 5 4294967295).fake.gid = 0 ∧
    (grootfs_chown_step ⟨⟨1, 1, 33188, 0, 0⟩, ⟨4, 0, 0, 420⟩⟩ 5 4294967295).fake.mode = 420 ∧
    (grootfs_chown_step ⟨⟨1, 1, 33188, 0, 0⟩, ⟨4, 0, 0, 420⟩⟩ 5 4294967295).real = ⟨1, 1, 33188, 0, 0⟩ := by
  have h := chown_updates_only_claims ⟨⟨1, 1, 33188, 0, 0⟩, ⟨4, 0, 0, 420⟩⟩ 5 4294967295
  refine ⟨(h.2.2.2.1 (by decide)).1, ?_, h.2.1, h.1⟩
  exact (h.2.2.2.2.2.2 (by decide)).1

/-- Claim C8: the access callback forwards the probe to faccessat, so a
write probe on a backing file whose real bits are r--r--r-- (0o444 = 292)
returns -EACCES instead of the promised success. -/
theorem access_write_probe_forwarded :
    grootfs_access 292 W_OK = -13 ∧ grootfs_access 292 W_OK ≠ 0 := by decide

/-! ## create/open -/

theorem lor_excl_keeps_creat (f : Nat) : (f ||| 128) &&& 64 = f &&& 64 := by
  rw [Nat.and_distrib_right, show (128 &&& 64 : Nat) = 0 by decide, Nat.or_zero]

theorem lor_excl_has_excl (f : Nat) : ((f ||| 128) &&& 128 != 0) = true := by
  rw [land_128_bne, show (128 : Nat) = 2 ^ 7 by norm_num]
  exact testBit_lor_pow_self f 7

/-- Claim C3: with O_CREAT and no O_EXCL the first openat adds O_EXCL; on a
pre-existing file that call fails with EEXIST and a retry with the original
flags opens the file with no record written; on a missing file the single
exclusive call creates it and the fake record carries all three flags with
mode masked to 0o7777 and the FUSE request credentials. -/
theorem open_creat_excl_retry (st : OpenFileState) (flags mode ctx_uid ctx_gid : Nat)
    (hc : (flags &&& O_CREAT != 0) = true) (he : (flags &&& O_EXCL != 0) = false) :
    (do_open st flags mode ctx_uid ctx_gid none).openCalls.head? = some (flags ||| O_EXCL) ∧
    (st.file_present = true →
      (do_open st flags mode ctx_uid ctx_gid none).openCalls = [flags ||| O_EXCL, flags] ∧
      (do_open st flags mode ctx_uid ctx_gid none).result = Except.ok () ∧
      (do_open st flags mode ctx_uid ctx_gid none).state.fake = st.fake) ∧
    (st.file_present = false →
      (do_open st flags mode ctx_uid ctx_gid none).openCalls = [flags ||| O_EXCL] ∧
      (do_open st flags mode ctx_uid ctx_gid none).result = Except.ok () ∧
      (do_open st flags mode ctx_uid ctx_gid none).state.file_present = true ∧
      (do_open st flags mode ctx_uid ctx_gid none).state.fake
        = some { flags := 7, uid := ctx_uid, gid := ctx_gid, mode := mode % 4096 }) := by
  have hmask : mode &&& ST_MODE_PERM_MASK = mode % 4096 := land_4095 mode
  have hflags7 : (GROOTFS_FLAGS_MODE_SET ||| GROOTFS_FLAGS_UID_SET ||| GROOTFS_FLAGS_GID_SET : Nat) = 7 := by decide
  have hc' : ¬ (flags &&& 64 = 0) := by
    have := hc
    simp only [O_CREAT, bne_iff_ne, ne_eq, decide_eq_true_eq] at this
    simpa using this
  have he' : flags &&& 128 = 0 := by
    have := he
    simp only [O_EXCL] at this
    simpa using this
  have hx : ¬ ((flags ||| 128) &&& 64 = 0) := by rw [lor_excl_keeps_creat]; exact hc'
  have hy : ¬ ((flags ||| 128) &&& 128 = 0) := by
    have := lor_excl_has_excl flags
    simpa using this
  cases hp : st.file_present <;>
    simp [do_open, kernel_openat, O_CREAT, O_EXCL, hc', he', hx, hy, hp, hmask, hflags7]

/-- Witness for open_creat_excl_retry: create of a missing file with flags
O_CREAT (64) and mode 420. -/
theorem open_creat_excl_retry_witness :
    (do_open ⟨false, none⟩ 64 420 1000 1000 none).openCalls = [64 ||| 128] ∧
    (do_open ⟨false, none⟩ 64 420 1000 1000 none).state.fake
      = some { flags := 7, uid := 1000, gid := 1000, mode := 420 % 4096 } := by
  have h := open_creat_excl_retry ⟨false, none⟩ 64 420 1000 1000 (by decide) (by decide)
  have h2 := h.2.2 rfl
  exact ⟨h2.1, h2.2.2.2⟩

/-- Claim C10: when the exclusive create succeeds but writing the fake
record fails, do_open returns the negated setxattr errno while the newly
created backing file stays in place with no fake record. -/
theorem open_created_xattr_failure (st : OpenFileState) (flags mode ctx_uid ctx_gid e : Nat)
    (hc : (flags &&& O_CREAT != 0) = true) (hp : st.file_present = false)
    (hf : st.fake = none) :
    (do_open st flags mode ctx_uid ctx_gid (some e)).result = Except.error (-(e : Int)) ∧
    (do_open st flags mode ctx_uid ctx_gid (some e)).state.file_present = true ∧
    (do_open st flags mode ctx_uid ctx_gid (some e)).state.fake = none := by
  have hc' : ¬ (flags &&& 64 = 0) := by
    have := hc
    simp only [O_CREAT] at this
    simpa using this
  have hx : ¬ ((flags ||| 128) &&& 64 = 0) := by rw [lor_excl_keeps_creat]; exact hc'
  by_cases he : flags &&& 128 = 0 <;>
    simp [do_open, kernel_openat, O_CREAT, O_EXCL, hc', he, hx, hp, hf]

/-- Witness for open_created_xattr_failure: ENOTSUP from fsetxattr after
creating a file with O_CREAT. -/
theorem open_created_xattr_failure_witness :
    (do_open ⟨false, none⟩ 64 420 0 0 (some 95)).result = Except.error (-95) ∧
    (do_open ⟨false, none⟩ 64 420 0 0 (some 95)).state.file_present = true ∧
    (do_open ⟨false, none⟩ 64 420 0 0 (some 95)).state.fake = none :=
  open_created_xattr_failure ⟨false, none⟩ 64 420 0 0 95 (by decide) rfl rfl

/-! ## The fake-record codec -/

theorem ntohl_htonl (d : GRootFSData) (h1 : d.flags < 4294967296) (h2 : d.uid < 4294967296)
    (h3 : d.gid < 4294967296) (h4 : d.mode < 4294967296) :
    fake_data_ntohl (fake_data_htonl d) = d := by
  obtain ⟨f, u, g, m⟩ := d
  simp only [fake_data_htonl, fake_data_ntohl, be4, be32] at *
  simp only [List.cons_append, List.nil_append, List.take, List.drop, List.foldl]
  simp only [GRootFSData.mk.injEq]
  refine ⟨?_, ?_, ?_, ?_⟩ <;> omega

/-- Claim C5: reading the fake record yields the all-zero record for an
absent or unsupported attribute (ENODATA, ENOTSUP, and ENOENT when a
missing file is allowed), an error when allow_noent is off and the file is
missing, -ERANGE whenever the stored length is not exactly 16 bytes, and
on success the four fields byte-order-normalised from big-endian (so a
round trip through the wire format is the identity). -/
theorem get_fake_data_record_spec :
    (∀ a : Bool, get_fake_data a (XattrReadRes.err ENODATA) = Except.ok zeroData) ∧
    (∀ a : Bool, get_fake_data a (XattrReadRes.err ENOTSUP) = Except.ok zeroData) ∧
    get_fake_data true (XattrReadRes.err ENOENT) = Except.ok zeroData ∧
    get_fake_data false (XattrReadRes.err ENOENT) = Except.error (-2) ∧
    (∀ (a : Bool) (bytes : List Nat), bytes.length ≠ 16 →
      get_fake_data a (lgetxattr_grootfs (some bytes)) = Except.error (-34)) ∧
    (∀ (a : Bool) (d : GRootFSData), d.flags < 4294967296 → d.uid < 4294967296 →
      d.gid < 4294967296 → d.mode < 4294967296 →
      get_fake_data a (lgetxattr_grootfs (some (fake_data_htonl d))) = Except.ok d) := by
  refine ⟨fun a => by cases a <;> rfl, fun a => by cases a <;> rfl, rfl, rfl, ?_, ?_⟩
  · intro a bytes h
    by_cases hl : bytes.length > 16
    · have : lgetxattr_grootfs (some bytes) = XattrReadRes.err ERANGE := by
        simp [lgetxattr_grootfs, hl]
      rw [this]
      cases a <;> rfl
    · have : lgetxattr_grootfs (some bytes) = XattrReadRes.ok bytes := by
        simp [lgetxattr_grootfs, hl]
      rw [this]
      simp [get_fake_data, h, ERANGE]
  · intro a d h1 h2 h3 h4
    have hlen : (fake_data_htonl d).length = 16 := by
      simp [fake_data_htonl, be4]
    have hread : lgetxattr_grootfs (some (fake_data_htonl d)) = XattrReadRes.ok (fake_data_htonl d) := by
      simp [lgetxattr_grootfs, hlen]
    rw [hread]
    simp [get_fake_data, hlen, ntohl_htonl d h1 h2 h3 h4]

/-- Witness for get_fake_data_record_spec: a concrete round trip and a
concrete short read. -/
theorem get_fake_data_record_spec_witness :
    get_fake_data true (lgetxattr_grootfs (some (fake_data_htonl ⟨7, 1000, 1000, 420⟩)))
      = Except.ok ⟨7, 1000, 1000, 420⟩ ∧
    get_fake_data false (lgetxattr_grootfs (some [1, 2, 3])) = Except.error (-34) := by
  refine ⟨?_, ?_⟩
  · exact get_fake_data_record_spec.2.2.2.2.2 true ⟨7, 1000, 1000, 420⟩
      (by decide) (by decide) (by decide) (by decide)
  · exact get_fake_data_record_spec.2.2.2.2.1 false [1, 2, 3] (by decide)

/-! ## unlink and sidecars -/

theorem removeKey_lookup_none {α β : Type} [DecidableEq α] (l : List (α × β)) (k : α) :
    lookupKey (removeKey l k) k = none := by
  induction l with
  | nil => rfl
  | cons p rest ih =>
    obtain ⟨a, b⟩ := p
    by_cases h : a = k
    · simp [removeKey, h, ih]
    · simp [removeKey, lookupKey, h, ih]

/-- Claim C6: when unlink succeeds on a symlink, the sidecar named by the
symlink's device and inode numbers is gone from the wrap root. -/
theorem unlink_removes_sidecar (st : WrapState) (path : List Char) (st' : WrapState)
    (e : InodeData) (hent : lookupKey st.entries path = some e) (hlnk : e.is_symlink = true)
    (hok : grootfs_unlink st path = Except.ok st') :
    lookupKey st'.sidecars (sidecar_name e.st_dev e.st_ino) = none := by
  unfold grootfs_unlink at hok
  rw [hent] at hok
  simp only [hlnk, if_true] at hok
  cases hres : get_fake_data true (read_sidecar st (sidecar_name e.st_dev e.st_ino)) with
  | error err =>
    rw [hres] at hok
    exact absurd hok (by simp)
  | ok d =>
    rw [hres] at hok
    cases hok
    exact removeKey_lookup_none ..

/-- Witness for unlink_removes_sidecar: a one-symlink wrap directory whose
sidecar holds a 16-byte record. -/
theorem unlink_removes_sidecar_witness :
    lookupKey (WrapState.mk [] []).sidecars (sidecar_name 5 9) = none :=
  unlink_removes_sidecar
    ⟨[("l".toList, ⟨5, 9, true, none⟩)], [(sidecar_name 5 9, some (List.replicate 16 0))]⟩
    "l".toList ⟨[], []⟩ ⟨5, 9, true, none⟩ (by decide) rfl rfl

/-! ## user xattrs -/

theorem lookupKey_setAssoc_self {α β : Type} [DecidableEq α] (l : List (α × β)) (k : α) (v : β) :
    lookupKey (setAssoc l k v) k = some v := by
  induction l with
  | nil => simp [setAssoc, lookupKey]
  | cons p rest ih =>
    obtain ⟨a, b⟩ := p
    by_cases h : a = k <;> simp [setAssoc, lookupKey, h, ih]

theorem strip_listed_filterMap (names : List (List Char)) :
    strip_listed names = names.filterMap (fun n =>
      if grootfs_xattr_pfx.isPrefixOf n then some (n.drop grootfs_xattr_pfx.length) else none) := by
  induction names with
  | nil => rfl
  | cons n rest ih =>
    by_cases h : grootfs_xattr_pfx <+: n <;>
      simp [strip_listed, List.filterMap_cons, List.isPrefixOf_iff_prefix, h, ih]

/-- Claim C7: setxattr stores under the user.grootfs. prefix and getxattr
returns the stored value; listxattr with size 0 reports the needed size,
fails with -ERANGE on a too-small non-zero size, and otherwise returns
exactly the prefix-stripped names of the backing attributes carrying the
prefix; the bare internal name user.grootfs does not carry the prefix and
therefore never shows up. -/
theorem xattr_prefix_spec (f : XattrFile) (name : List Char) (value : List Nat) (size : Nat) :
    grootfs_getxattr (grootfs_setxattr f name value) name = Except.ok value ∧
    grootfs_listxattr f 0 = ListXattrRes.size (fake_size_of (f.xattrs.map Prod.fst)) ∧
    (0 < size → size < fake_size_of (f.xattrs.map Prod.fst) →
      grootfs_listxattr f size = ListXattrRes.err (-34)) ∧
    (0 < size → fake_size_of (f.xattrs.map Prod.fst) ≤ size →
      grootfs_listxattr f size
        = ListXattrRes.names (strip_listed (f.xattrs.map Prod.fst))
            (fake_size_of (f.xattrs.map Prod.fst))) ∧
    strip_listed (f.xattrs.map Prod.fst)
      = (f.xattrs.map Prod.fst).filterMap (fun n =>
          if grootfs_xattr_pfx.isPrefixOf n then some (n.drop grootfs_xattr_pfx.length) else none) ∧
    grootfs_xattr_pfx.isPrefixOf "user.grootfs".toList = false ∧
    (∀ rest : List (List Char),
      strip_listed ("user.grootfs".toList :: rest) = strip_listed rest) := by
  refine ⟨?_, ?_, ?_, ?_, strip_listed_filterMap _, by decide, ?_⟩
  · unfold grootfs_getxattr grootfs_setxattr
    rw [lookupKey_setAssoc_self]
  · simp [grootfs_listxattr]
  · intro h0 hlt
    have hne : size ≠ 0 := by omega
    simp [grootfs_listxattr, hne, hlt, ERANGE]
  · intro h0 hle
    have hne : size ≠ 0 := by omega
    have hnlt : ¬ size < fake_size_of (f.xattrs.map Prod.fst) := by omega
    simp [grootfs_listxattr, hne, hnlt]
  · intro rest
    simp only [strip_listed]
    rw [if_neg (by decide)]

/-- Witness for xattr_prefix_spec: a concrete set/get round trip next to the
internal record attribute, and a concrete too-small buffer. -/
theorem xattr_prefix_spec_witness :
    grootfs_getxattr (grootfs_setxattr ⟨[("user.grootfs".toList, [0])]⟩ "foo".toList [98, 97, 114])
        "foo".toList = Except.ok [98, 97, 114] ∧
    grootfs_listxattr ⟨[("user.grootfs".toList, [0]), ("user.grootfs.foo".toList, [1])]⟩ 2
      = ListXattrRes.err (-34) := by
  refine ⟨(xattr_prefix_spec ⟨[("user.grootfs".toList, [0])]⟩ "foo".toList [98, 97, 114] 0).1, ?_⟩
  exact (xattr_prefix_spec ⟨[("user.grootfs".toList, [0]), ("user.grootfs.foo".toList, [1])]⟩
    [] [] 2).2.2.1 (by decide) (by decide)

/-! ## Traces of chmod/chown claims -/

theorem lastClaim_shift (ex : ClaimOp → Option Nat) (ops : List ClaimOp) :
    ∀ acc : Option Nat,
      ops.foldl (fun a op => match ex op with | some v => some v | none => a) acc
        = match lastClaim ex ops with | some v => some v | none => acc := by
  induction ops with
  | nil => intro acc; simp [lastClaim]
  | cons op rest ih =>
    intro acc
    simp only [List.foldl_cons]
    rw [ih]
    have hcons : lastClaim ex (op :: rest)
        = match lastClaim ex rest with | some v => some v | none => ex op := by
      show rest.foldl _ _ = _
      rw [ih]
      cases hrest : lastClaim ex rest <;> cases hop : ex op <;> simp [hop]
    rw [hcons]
    cases hrest : lastClaim ex rest <;> cases hop : ex op <;> simp [hop]

theorem lastClaim_cons (ex : ClaimOp → Option Nat) (op : ClaimOp) (rest : List ClaimOp) :
    lastClaim ex (op :: rest)
      = match lastClaim ex rest with | some v => some v | none => ex op := by
  show rest.foldl _ _ = _
  rw [lastClaim_shift]
  cases hrest : lastClaim ex rest <;> cases hop : ex op <;> simp [hop]

theorem kernel_chmod_strip (m p : Nat) :
    kernel_chmod m p - kernel_chmod m p % 4096 = m - m % 4096 := by
  unfold kernel_chmod; omega

theorem kernel_chmod_lt (m p : Nat) (h : m < 4294967296) :
    kernel_chmod m p < 4294967296 := by
  unfold kernel_chmod; omega

theorem runClaims_real_uid (maxU maxG : Nat) (ops : List ClaimOp) : ∀ st : FileState,
    (runClaims maxU maxG st ops).real.st_uid = st.real.st_uid := by
  induction ops with
  | nil => intro st; rfl
  | cons op rest ih =>
    intro st
    cases op with
    | chmodOp m => simp only [runClaims]; rw [ih, chmod_step_real_uid]
    | chownOp u g => simp only [runClaims]; rw [ih, chown_step_real]

theorem runClaims_real_gid (maxU maxG : Nat) (ops : List ClaimOp) : ∀ st : FileState,
    (runClaims maxU maxG st ops).real.st_gid = st.real.st_gid := by
  induction ops with
  | nil => intro st; rfl
  | cons op rest ih =>
    intro st
    cases op with
    | chmodOp m => simp only [runClaims]; rw [ih, chmod_step_real_gid]
    | chownOp u g => simp only [runClaims]; rw [ih, chown_step_real]

theorem runClaims_real_strip (maxU maxG : Nat) (ops : List ClaimOp) : ∀ st : FileState,
    (runClaims maxU maxG st ops).real.st_mode - (runClaims maxU maxG st ops).real.st_mode % 4096
      = st.real.st_mode - st.real.st_mode % 4096 := by
  induction ops with
  | nil => intro st; rfl
  | cons op rest ih =>
    intro st
    cases op with
    | chmodOp m =>
      simp only [runClaims]
      rw [ih, chmod_step_real_mode, kernel_chmod_strip]
    | chownOp u g => simp only [runClaims]; rw [ih, chown_step_real]

theorem runClaims_real_lt (maxU maxG : Nat) (ops : List ClaimOp) : ∀ st : FileState,
    st.real.st_mode < 4294967296 → (runClaims maxU maxG st ops).real.st_mode < 4294967296 := by
  induction ops with
  | nil => intro st h; exact h
  | cons op rest ih =>
    intro st h
    cases op with
    | chmodOp m =>
      simp only [runClaims]
      exact ih _ (by rw [chmod_step_real_mode]; exact kernel_chmod_lt _ _ h)
    | chownOp u g =>
      simp only [runClaims]
      exact ih _ (by rw [chown_step_real]; exact h)

theorem runClaims_real_mode_nochmod (maxU maxG : Nat) (ops : List ClaimOp) : ∀ st : FileState,
    lastClaim exChmodMode ops = none →
    (runClaims maxU maxG st ops).real.st_mode = st.real.st_mode := by
  induction ops with
  | nil => intro st _; rfl
  | cons op rest ih =>
    intro st h
    rw [lastClaim_cons] at h
    cases op with
    | chmodOp m =>
      exfalso
      cases hrest : lastClaim exChmodMode rest <;> rw [hrest] at h <;> simp [exChmodMode] at h
    | chownOp u g =>
      cases hrest : lastClaim exChmodMode rest
      · simp only [runClaims]
        rw [ih _ hrest, chown_step_real]
      · rw [hrest] at h; simp at h

theorem runClaims_fake_uid (maxU maxG : Nat) (ops : List ClaimOp) : ∀ st : FileState,
    (runClaims maxU maxG st ops).fake.uid = (lastClaim exChownUid ops).getD st.fake.uid := by
  induction ops with
  | nil => intro st; simp [runClaims, lastClaim]
  | cons op rest ih =>
    intro st
    rw [lastClaim_cons]
    cases op with
    | chmodOp m =>
      simp only [runClaims]
      rw [ih, chmod_step_fake_uid]
      cases hrest : lastClaim exChownUid rest <;> simp [exChownUid]
    | chownOp u g =>
      simp only [runClaims]
      rw [ih, chown_step_fake_uid]
      cases hrest : lastClaim exChownUid rest
      · by_cases hu : (u != uid_minus_one) = true <;> simp [exChownUid, hu]
      · simp

theorem runClaims_fake_gid (maxU maxG : Nat) (ops : List ClaimOp) : ∀ st : FileState,
    (runClaims maxU maxG st ops).fake.gid = (lastClaim exChownGid ops).getD st.fake.gid := by
  induction ops with
  | nil => intro st; simp [runClaims, lastClaim]
  | cons op rest ih =>
    intro st
    rw [lastClaim_cons]
    cases op with
    | chmodOp m =>
      simp only [runClaims]
      rw [ih, chmod_step_fake_gid]
      cases hrest : lastClaim exChownGid rest <;> simp [exChownGid]
    | chownOp u g =>
      simp only [runClaims]
      rw [ih, chown_step_fake_gid]
      cases hrest : lastClaim exChownGid rest
      · by_cases hg : (g != uid_minus_one) = true <;> simp [exChownGid, hg]
      · simp

theorem runClaims_fake_mode (maxU maxG : Nat) (ops : List ClaimOp) : ∀ st : FileState,
    (runClaims maxU maxG st ops).fake.mode = (lastClaim exChmodMode ops).getD st.fake.mode := by
  induction ops with
  | nil => intro st; simp [runClaims, lastClaim]
  | cons op rest ih =>
    intro st
    rw [lastClaim_cons]
    cases op with
    | chmodOp m =>
      simp only [runClaims]
      rw [ih, chmod_step_fake_mode]
      cases hrest : lastClaim exChmodMode rest <;> simp [exChmodMode, ST_MODE_PERM_MASK]
    | chownOp u g =>
      simp only [runClaims]
      rw [ih, chown_step_fake_mode]
      cases hrest : lastClaim exChmodMode rest <;> simp [exChmodMode]

theorem runClaims_flag0 (maxU maxG : Nat) (ops : List ClaimOp) : ∀ st : FileState,
    (runClaims maxU maxG st ops).fake.flags.testBit 0
      = (st.fake.flags.testBit 0 || (lastClaim exChownUid ops).isSome) := by
  induction ops with
  | nil => intro st; simp [runClaims, lastClaim]
  | cons op rest ih =>
    intro st
    rw [lastClaim_cons]
    cases op with
    | chmodOp m =>
      simp only [runClaims]
      rw [ih]
      have : (grootfs_chmod_step maxU maxG st m).fake.flags.testBit 0
          = st.fake.flags.testBit 0 := by
        rw [chmod_step_fake_flags]; exact tb_lor_four_zero _
      rw [this]
      cases hrest : lastClaim exChownUid rest <;> simp [exChownUid]
    | chownOp u g =>
      simp only [runClaims]
      rw [ih, chown_step_flag0]
      cases hrest : lastClaim exChownUid rest
      · by_cases hu : (u != uid_minus_one) = true <;> simp [exChownUid, hu]
      · simp

theorem runClaims_flag1 (maxU maxG : Nat) (ops : List ClaimOp) : ∀ st : FileState,
    (runClaims maxU maxG st ops).fake.flags.testBit 1
      = (st.fake.flags.testBit 1 || (lastClaim exChownGid ops).isSome) := by
  induction ops with
  | nil => intro st; simp [runClaims, lastClaim]
  | cons op rest ih =>
    intro st
    rw [lastClaim_cons]
    cases op with
    | chmodOp m =>
      simp only [runClaims]
      rw [ih]
      have : (grootfs_chmod_step maxU maxG st m).fake.flags.testBit 1
          = st.fake.flags.testBit 1 := by
        rw [chmod_step_fake_flags]; exact tb_lor_four_one _
      rw [this]
      cases hrest : lastClaim exChownGid rest <;> simp [exChownGid]
    | chownOp u g =>
      simp only [runClaims]
      rw [ih, chown_step_flag1]
      cases hrest : lastClaim exChownGid rest
      · by_cases hg : (g != uid_minus_one) = true <;> simp [exChownGid, hg]
      · simp

theorem runClaims_flag2 (maxU maxG : Nat) (ops : List ClaimOp) : ∀ st : FileState,
    (runClaims maxU maxG st ops).fake.flags.testBit 2
      = (st.fake.flags.testBit 2 || (lastClaim exChmodMode ops).isSome) := by
  induction ops with
  | nil => intro st; simp [runClaims, lastClaim]
  | cons op rest ih =>
    intro st
    rw [lastClaim_cons]
    cases op with
    | chmodOp m =>
      simp only [runClaims]
      rw [ih]
      have : (grootfs_chmod_step maxU maxG st m).fake.flags.testBit 2 = true := by
        rw [chmod_step_fake_flags]; exact tb_lor_four_two _
      rw [this]
      cases hrest : lastClaim exChmodMode rest <;> simp [exChmodMode]
    | chownOp u g =>
      simp only [runClaims]
      rw [ih, chown_step_flag2]
      cases hrest : lastClaim exChmodMode rest <;> simp [exChmodMode]

/-- Claim C1 (amended): on a file with no prior claims, getattr reports,
for each of uid and gid, the most recent chown claim when one exists and
the backing inode's real id otherwise, and in both cases the value is
projected through the identity cap (above the configured maximum it reads
as 0); the mode keeps the real file-type bits and carries the most recent
chmod claim's permission bits when one exists, else the real mode, without
capping. -/
theorem getattr_claims_capped (maxU maxG : Nat) (st0 : FileState) (ops : List ClaimOp)
    (h0 : st0.fake = zeroData) (hm : st0.real.st_mode < 4294967296) :
    (grootfs_getattr_model maxU maxG (runClaims maxU maxG st0 ops)).st_uid
        = capId maxU ((lastClaim exChownUid ops).getD st0.real.st_uid) ∧
    (grootfs_getattr_model maxU maxG (runClaims maxU maxG st0 ops)).st_gid
        = capId maxG ((lastClaim exChownGid ops).getD st0.real.st_gid) ∧
    (grootfs_getattr_model maxU maxG (runClaims maxU maxG st0 ops)).st_mode
        = (match lastClaim exChmodMode ops with
           | some v => (st0.real.st_mode - st0.real.st_mode % 4096) + v % 4096
           | none => st0.real.st_mode) := by
  have hb0 : st0.fake.flags.testBit 0 = false := by rw [h0]; decide
  have hb1 : st0.fake.flags.testBit 1 = false := by rw [h0]; decide
  have hb2 : st0.fake.flags.testBit 2 = false := by rw [h0]; decide
  unfold grootfs_getattr_model
  refine ⟨?_, ?_, ?_⟩
  · rw [apply_fake_data_st_uid, land_one_bne, runClaims_flag0, hb0, Bool.false_or]
    cases hU : lastClaim exChownUid ops
    · simp only [Option.isSome_none, Bool.false_eq_true, if_false, Option.getD_none]
      rw [runClaims_real_uid]
    · rw [runClaims_fake_uid, hU]
      simp
  · rw [apply_fake_data_st_gid, land_two_bne, runClaims_flag1, hb1, Bool.false_or]
    cases hG : lastClaim exChownGid ops
    · simp only [Option.isSome_none, Bool.false_eq_true, if_false, Option.getD_none]
      rw [runClaims_real_gid]
    · rw [runClaims_fake_gid, hG]
      simp
  · rw [apply_fake_data_st_mode, land_four_bne, runClaims_flag2, hb2, Bool.false_or]
    cases hM : lastClaim exChmodMode ops
    · simp only [Option.isSome_none, Bool.false_eq_true, if_false]
      exact runClaims_real_mode_nochmod maxU maxG ops st0 hM
    · simp only [Option.isSome_some, if_true]
      rw [runClaims_fake_mode, hM, Option.getD_some, land_4095,
        land_high _ (runClaims_real_lt maxU maxG ops st0 hm),
        lor_eq_add _ _ (by omega) (by omega)]
      have hstrip := runClaims_real_strip maxU maxG ops st0
      have h1 : 4096 * ((runClaims maxU maxG st0 ops).real.st_mode / 4096)
          = (runClaims maxU maxG st0 ops).real.st_mode
              - (runClaims maxU maxG st0 ops).real.st_mode % 4096 := by omega
      rw [h1, hstrip]

/-- Claim C1 as stated is refuted here: with max_uid 1, after chown(P, 2, 2)
the most recent uid claim for P is 2, yet getattr reports 0, because the
identity cap is applied to claimed ids as well, not only to real ones. -/
theorem getattr_claims_counterexample :
    lastClaim exChownUid [ClaimOp.chownOp 2 2] = some 2 ∧
    (grootfs_getattr_model 1 1 (runClaims 1 1 ⟨⟨1, 1, 33188, 0, 0⟩, zeroData⟩
        [ClaimOp.chownOp 2 2])).st_uid ≠ 2 := by decide

/-- Witness for getattr_claims_capped: chown(1000, 1000) then chmod(0644)
under max ids 65536. -/
theorem getattr_claims_capped_witness :
    (grootfs_getattr_model 65536 65536 (runClaims 65536 65536 ⟨⟨1, 1, 33188, 0, 0⟩, zeroData⟩
        [ClaimOp.chownOp 1000 1000, ClaimOp.chmodOp 420])).st_uid
      = capId 65536 ((lastClaim exChownUid
          [ClaimOp.chownOp 1000 1000, ClaimOp.chmodOp 420]).getD 1) :=
  (getattr_claims_capped 65536 65536 ⟨⟨1, 1, 33188, 0, 0⟩, zeroData⟩
    [ClaimOp.chownOp 1000 1000, ClaimOp.chmodOp 420] rfl (by decide)).1

/-! ## make_idmap -/

theorem idmap_foldl_char (username : List Char) (lines : List (List Char)) :
    ∀ acc : IdmapState,
      lines.foldl (idmap_step username) acc
        = { triples := acc.triples ++ densify acc.next_id (acceptedRanges username lines)
            next_id := acc.next_id + sumCounts (acceptedRanges username lines)
            invalid_warns := acc.invalid_warns + malformedCount username lines } := by
  induction lines with
  | nil => intro acc; simp [acceptedRanges, malformedCount, densify, sumCounts]
  | cons l rest ih =>
    intro acc
    simp only [List.foldl_cons]
    rw [ih]
    cases hp : parse_subid_line username l with
    | othername =>
      simp only [idmap_step, hp, acceptedRanges, malformedCount, List.filterMap_cons,
        List.countP_cons, hp]
      simp
    | malformed =>
      simp only [idmap_step, hp, acceptedRanges, malformedCount, List.filterMap_cons,
        List.countP_cons]
      simp only [IdmapState.mk.injEq]
      refine ⟨by simp, by simp, by simp; omega⟩
    | idrange b c =>
      simp only [idmap_step, hp, acceptedRanges, malformedCount, List.filterMap_cons,
        List.countP_cons]
      simp only [IdmapState.mk.injEq, densify, sumCounts]
      refine ⟨by simp [List.append_assoc], by ring, by simp⟩

/-- Claim C9: the mapping table built from a sub-ID file's content starts
with the identity triple (0, base_id, 1) and continues with one triple per
line whose name field is the login name and whose two numeric fields both
parse, with namespace ids assigned densely starting at 1; other lines are
skipped; each matching but malformed line adds one warning; when no line
is accepted the table is only the identity triple and the no-ids warning
fires. -/
theorem make_idmap_table_spec (username : List Char) (cs : List Char) (base_id : Int) :
    (make_idmap username (some cs) base_id).triples
        = (0, base_id, 1) :: densify 1 (acceptedRanges username (splitSep '\n' cs)) ∧
    (make_idmap username (some cs) base_id).invalid_warns
        = malformedCount username (splitSep '\n' cs) ∧
    (acceptedRanges username (splitSep '\n' cs) = [] →
      (make_idmap username (some cs) base_id).triples = [(0, base_id, 1)] ∧
      (make_idmap username (some cs) base_id).no_ids_warn = true) := by
  simp only [make_idmap]
  simp only [idmap_foldl_char username (splitSep '\n' cs)]
  refine ⟨by simp, by simp, ?_⟩
  intro h
  rw [h]
  simp [densify, sumCounts]

/-- Witness for make_idmap_table_spec: a file with one accepted line, one
line for another user and one malformed line, plus a file with no matching
line at all. -/
theorem make_idmap_table_spec_witness :
    (make_idmap "alice".toList (some "alice:100000:65536\nmallory:1:2\nalice:bad:5".toList)
        1000).triples
      = (0, 1000, 1) :: densify 1 (acceptedRanges "alice".toList
          (splitSep '\n' "alice:100000:65536\nmallory:1:2\nalice:bad:5".toList)) ∧
    (make_idmap "alice".toList (some "bob:1:2".toList) 1000).no_ids_warn = true := by
  refine ⟨(make_idmap_table_spec "alice".toList
    "alice:100000:65536\nmallory:1:2\nalice:bad:5".toList 1000).1, ?_⟩
  exact ((make_idmap_table_spec "alice".toList "bob:1:2".toList 1000).2.2 (by decide)).2

end Groot
